import Mathlib

/-!
Verification development for the "sap-make-a-wish" repository.

Part 1 models the PPV (Purchase Price Variance) computation, decomposition
and root-cause classification engine.  The repository contains no reference
implementation of this engine (its policy lives in a prompt document and in
the specification), so every definition in the `PPV` namespace is modelled
from the spec, faithful to its words (sections 3, 4.1-4.5, 7).

Part 2 (namespace `Wish`) is a shallow embedding of the TypeScript code in
`src/api/perplexity.ts`, `src/api/mock.ts` and `src/App.tsx`.

Monetary amounts and quantities are rationals; dates are day numbers with
day 0 a Monday, so a day `d` is a weekend day exactly when `d % 7` is 5 or 6.
-/

namespace PPV

/-- Modelled from the spec: the per-item fatal error taxonomy of section 7
(`RateNotFoundError`, `ConversionNotFoundError`, `DegenerateQuantityError`,
`MissingTableError`, `DecompositionInvariantError`).  The external-context
lookup failure is deliberately *not* a constructor of this type. -/
inductive EngineError where
  | rateNotFound (currency : String) (date : Nat)
  | conversionNotFound (material fromUoM toUoM : String)
  | degenerateQuantity
  | missingTable (table : String)
  | decompositionInvariant
deriving DecidableEq, Repr

/-- Modelled from the spec: an `FxRate` row
`(RateType, FromCurrency, ToCurrency, ValidDate, Rate, SourceSystem)`. -/
structure FxRate where
  rateType : String
  fromCurrency : String
  toCurrency : String
  validDate : Nat
  rate : ℚ
  sourceSystem : String
deriving DecidableEq, Repr

/-- Modelled from the spec: a `UomConversion` row
`(Material, FromUoMToUoM, FactorNumerator, FactorDenominator)`. -/
structure UomConversion where
  material : String
  fromUoMToUoM : String
  factorNumerator : ℚ
  factorDenominator : ℚ
deriving DecidableEq, Repr

/-- Modelled from the spec: engine configuration — rate and conversion
tables, the configurable holiday set, the bounded FX lookback, the injected
"disallowed for apples-to-apples" condition-type deny list, and the numeric
tolerance of the decomposition invariant. -/
structure EngineEnv where
  fxRates : List FxRate
  uomConversions : List UomConversion
  holidays : List Nat
  maxLookback : Nat
  disallowedConditionTypes : List String
  tolerance : ℚ
deriving DecidableEq, Repr

/-- Day 0 is a Monday, so Saturday and Sunday are residues 5 and 6. -/
def isWeekend (d : Nat) : Bool :=
  d % 7 = 5 ∨ d % 7 = 6

/-- A business day is a non-weekend day outside the configured holiday set. -/
def isBusinessDay (holidays : List Nat) (d : Nat) : Bool :=
  !isWeekend d && !holidays.contains d

/-- Rate lookup on one exact date: `RateType="M"`, `FromCurrency=currency`,
`ToCurrency="EUR"`, `ValidDate=d`. -/
def findRateOn (rates : List FxRate) (currency : String) (d : Nat) : Option ℚ :=
  (rates.find? fun r =>
    r.rateType = "M" && r.fromCurrency = currency && r.toCurrency = "EUR" &&
      r.validDate = d).map (·.rate)

/-- Modelled from the spec (section 4.1): walk backward from `d` through
prior business days (weekends and configured holidays are skipped) until a
rate is found or the fuel — one more than the maximum lookback — runs out. -/
def lookupRate (rates : List FxRate) (holidays : List Nat) (currency : String) :
    Nat → Nat → Option ℚ
  | _, 0 => none
  | d, fuel + 1 =>
    if isBusinessDay holidays d then
      match findRateOn rates currency d with
      | some r => some r
      | none => lookupRate rates holidays currency (d - 1) fuel
    else
      lookupRate rates holidays currency (d - 1) fuel

/-- Modelled from the spec (section 4.1): `toEUR(amount, currency, date)` is
the identity for EUR; otherwise it resolves a rate by the backward walk and
fails with `RateNotFoundError` when the maximum lookback is exhausted —
never defaulting the rate to `1.0`. -/
def toEUR (env : EngineEnv) (amount : ℚ) (currency : String) (date : Nat) :
    Except EngineError ℚ :=
  if currency = "EUR" then
    .ok amount
  else
    match lookupRate env.fxRates env.holidays currency date (env.maxLookback + 1) with
    | some r => .ok (amount * r)
    | none => .error (.rateNotFound currency date)

/-- Modelled from the spec (section 4.1): quantity conversion between units
of measure; identity when the units are equal, otherwise
`qty * FactorNumerator / FactorDenominator` from the matching row, failing
with `ConversionNotFoundError` when no row matches. -/
def convertQuantity (env : EngineEnv) (qty : ℚ) (material fromUoM toUoM : String) :
    Except EngineError ℚ :=
  if fromUoM = toUoM then
    .ok qty
  else
    match env.uomConversions.find? fun r =>
        r.material = material && r.fromUoMToUoM = fromUoM ++ ">" ++ toUoM with
    | some r => .ok (qty * r.factorNumerator / r.factorDenominator)
    | none => .error (.conversionNotFound material fromUoM toUoM)

/-- Modelled from the spec: a `POItem` row, extended with the PO unit of
measure that section 4.2 requires as the conversion target. -/
structure POItem where
  purchaseOrder : String
  purchaseOrderItem : String
  companyCode : String
  supplier : String
  material : String
  orderQuantity : ℚ
  orderPriceUnit : ℚ
  netPriceAmount : ℚ
  documentCurrency : String
  plant : String
  creationDate : Nat
  orderUoM : String
deriving DecidableEq, Repr

/-- Modelled from the spec: an `InvoiceItem` row matched to a PO item,
extended with the invoice unit of measure that section 4.2 converts from.
Credit memos carry negative `Quantity` and `InvoiceAmount`. -/
structure InvoiceItem where
  supplierInvoice : String
  fiscalYear : Nat
  supplierInvoiceItem : String
  quantity : ℚ
  invoiceAmount : ℚ
  documentCurrency : String
  postingDate : Nat
  invoiceType : String
  invoiceUoM : String
deriving DecidableEq, Repr

/-- Modelled from the spec: a `Condition` pricing-component row. -/
structure ConditionRow where
  documentType : String
  documentID : String
  item : String
  conditionType : String
  conditionAmount : ℚ
  currency : String
  isHeaderLevel : Bool
deriving DecidableEq, Repr

/-- Modelled from the spec (section 4.2 step 2): net aggregation over the
invoice items of one PO item.  Each invoice quantity is converted to the PO
unit of measure and each amount to EUR at its posting date; the returned
triple is (net converted quantity, net raw quantity, net EUR amount), with
credit-memo rows netted in by ordinary signed addition. -/
def aggregateInvoices (env : EngineEnv) (po : POItem) (invoices : List InvoiceItem) :
    Except EngineError (ℚ × ℚ × ℚ) :=
  match invoices with
  | [] => .ok (0, 0, 0)
  | inv :: rest =>
    match convertQuantity env inv.quantity po.material inv.invoiceUoM po.orderUoM with
    | .error e => .error e
    | .ok cq =>
      match toEUR env inv.invoiceAmount inv.documentCurrency inv.postingDate with
      | .error e => .error e
      | .ok amt =>
        match aggregateInvoices env po rest with
        | .error e => .error e
        | .ok (q, rq, a) => .ok (cq + q, inv.quantity + rq, amt + a)

/-- Modelled from the spec (section 4.2 step 2): the item-level posted unit
price is the quantity-weighted average — net EUR amount over net converted
quantity — failing with `DegenerateQuantityError` when the net converted
quantity is zero rather than dividing by zero. -/
def postedUnitPriceEUR (env : EngineEnv) (po : POItem) (invoices : List InvoiceItem) :
    Except EngineError ℚ :=
  match aggregateInvoices env po invoices with
  | .error e => .error e
  | .ok (netQty, _, netAmt) =>
    if netQty = 0 then .error .degenerateQuantity else .ok (netAmt / netQty)

/-- Modelled from the spec (section 4.2): the numeric part of a
`VarianceResult` — normalized unit prices, percentage variances and the four
contribution buckets. -/
structure Decomposition where
  poUnitPriceEUR : ℚ
  postedUnitPriceEUR : ℚ
  a2aUnitPriceEUR : ℚ
  ppvPostedPct : ℚ
  ppvA2aPct : ℚ
  conditions : ℚ
  fx : ℚ
  uom : ℚ
  residual : ℚ
deriving DecidableEq, Repr

/-- Modelled from the spec (section 4.2 steps 4-6): builds the decomposition
in the fixed attribution order — `Conditions` is the per-unit disallowed fee,
`a2a` removes exactly that fee, and `Residual` is everything the `FX` and
`UoM` buckets leave unexplained of the apples-to-apples gap. -/
def mkDecomposition (poUnit posted feePerUnit fxAmt uomAmt : ℚ) : Decomposition :=
  { poUnitPriceEUR := poUnit
    postedUnitPriceEUR := posted
    a2aUnitPriceEUR := posted - feePerUnit
    ppvPostedPct := (posted - poUnit) / poUnit * 100
    ppvA2aPct := ((posted - feePerUnit) - poUnit) / poUnit * 100
    conditions := feePerUnit
    fx := fxAmt
    uom := uomAmt
    residual := ((posted - feePerUnit) - poUnit) - fxAmt - uomAmt }

/-- The sum of the four contribution buckets. -/
def sumContributions (d : Decomposition) : ℚ :=
  d.conditions + d.fx + d.uom + d.residual

/-- The total variance a decomposition must conserve. -/
def totalVariance (d : Decomposition) : ℚ :=
  d.postedUnitPriceEUR - d.poUnitPriceEUR

/-- Modelled from the spec: the conservation law
`Conditions + FX + UoM + Residual == postedUnitPriceEUR - poUnitPriceEUR`
within a relative tolerance. -/
def invariantOK (tol : ℚ) (d : Decomposition) : Bool :=
  |sumContributions d - totalVariance d| ≤ tol * |totalVariance d|

/-- Modelled from the spec (section 4.2): a decomposition is only released
when the conservation invariant holds; otherwise the engine fails with
`DecompositionInvariantError`, never returning the result silently. -/
def finalizeDecomposition (env : EngineEnv) (d : Decomposition) :
    Except EngineError Decomposition :=
  if invariantOK env.tolerance d then .ok d else .error .decompositionInvariant

/-- Modelled from the spec (section 4.2 step 3): sum of the condition rows
whose type is in the disallowed set, each converted to EUR at the posting
date of its matched invoice document; rows of allowed types or without a
matched invoice contribute nothing. -/
def disallowedFeeSum (env : EngineEnv) (invoices : List InvoiceItem) :
    List ConditionRow → Except EngineError ℚ
  | [] => .ok 0
  | c :: rest =>
    if env.disallowedConditionTypes.contains c.conditionType then
      match invoices.find? fun inv => inv.supplierInvoice = c.documentID with
      | some inv =>
        match toEUR env c.conditionAmount c.currency inv.postingDate with
        | .error e => .error e
        | .ok amt =>
          match disallowedFeeSum env invoices rest with
          | .error e => .error e
          | .ok s => .ok (amt + s)
      | none => disallowedFeeSum env invoices rest
    else
      disallowedFeeSum env invoices rest

/-- Modelled from the spec (section 4.2 step 6): the FX bucket is
`(rate_invoice - rate_po) * poPriceInForeignCurrency` when the PO and every
invoice share one non-EUR currency, and zero when the currencies are both
EUR or differ (that cross-currency effect folds into `Residual`). -/
def fxBucket (env : EngineEnv) (po : POItem) (invoices : List InvoiceItem) :
    Except EngineError ℚ :=
  match invoices with
  | [] => .ok 0
  | inv :: _ =>
    if po.documentCurrency != "EUR" &&
        invoices.all (fun i => i.documentCurrency == po.documentCurrency) then
      match
        lookupRate env.fxRates env.holidays po.documentCurrency po.creationDate
          (env.maxLookback + 1),
        lookupRate env.fxRates env.holidays po.documentCurrency inv.postingDate
          (env.maxLookback + 1) with
      | some ratePO, some rateInv =>
        .ok ((rateInv - ratePO) * (po.netPriceAmount / po.orderPriceUnit))
      | _, _ => .error (.rateNotFound po.documentCurrency po.creationDate)
    else
      .ok 0

/-- Modelled from the spec (section 4.2 step 6): the UoM bucket isolates the
difference between the invoice-native unit price and the PO-UoM-normalized
unit price; it is zero when no conversion was applied. -/
def uomBucket (po : POItem) (invoices : List InvoiceItem)
    (posted netRawQty netAmt : ℚ) : ℚ :=
  if invoices.all fun i => i.invoiceUoM == po.orderUoM then 0
  else posted - netAmt / netRawQty

/-- Modelled from the spec (section 4.2): the full variance decomposition of
one PO item.  A PO item without any matched invoice row fails with
`MissingTableError`; a zero net converted quantity fails with
`DegenerateQuantityError`; the released decomposition passes the
conservation-invariant check of `finalizeDecomposition`. -/
def decompose (env : EngineEnv) (po : POItem) (invoices : List InvoiceItem)
    (conds : List ConditionRow) : Except EngineError Decomposition :=
  match invoices with
  | [] => .error (.missingTable "SUPPLIER_INVOICE_ITEMS")
  | _ :: _ =>
    match toEUR env po.netPriceAmount po.documentCurrency po.creationDate with
    | .error e => .error e
    | .ok poAmtEUR =>
      match aggregateInvoices env po invoices with
      | .error e => .error e
      | .ok (netQty, netRawQty, netAmt) =>
        if netQty = 0 then .error .degenerateQuantity
        else
          match disallowedFeeSum env invoices conds with
          | .error e => .error e
          | .ok feeSum =>
            match fxBucket env po invoices with
            | .error e => .error e
            | .ok fxAmt =>
              finalizeDecomposition env
                (mkDecomposition (poAmtEUR / po.orderPriceUnit) (netAmt / netQty)
                  (feeSum / netQty) fxAmt
                  (uomBucket po invoices (netAmt / netQty) netRawQty netAmt))

/-- Modelled from the spec (section 4.3): the closed root-cause taxonomy. -/
inductive Cause where
  | noActiveContract
  | unlinkedContract
  | unexpectedCost
  | materialPriceFluctuation
deriving DecidableEq, Repr

/-- The two contract-related causes. -/
def Cause.isContractCause : Cause → Bool
  | .noActiveContract => true
  | .unlinkedContract => true
  | _ => false

/-- The two price-related causes. -/
def Cause.isPriceCause (c : Cause) : Bool :=
  !c.isContractCause

/-- Modelled from the spec (section 4.3): the auxiliary boolean facts the
classifier consumes — contract linkage from external collaborators, and
whether the condition type is part of the PO base price. -/
structure AuxFacts where
  hasActiveContract : Bool
  contractLinkedToInvoice : Bool
  conditionTypeNotInBase : Bool
deriving DecidableEq, Repr

/-- Modelled from the spec (section 4.3): the configurable classifier
thresholds (default 1%). -/
structure Thresholds where
  conditionsPct : ℚ
  residualPct : ℚ
deriving DecidableEq, Repr

/-- The classifier thresholds at their documented default of 1%. -/
def defaultThresholds : Thresholds := ⟨1 / 100, 1 / 100⟩

/-- Modelled from the spec (section 4.3): `No Active Contract` has highest
precedence, selected regardless of contribution sizes; `Unlinked Contract`
fires when a contract exists but is not linked to the invoice. -/
def contractCauseOf (facts : AuxFacts) : Option Cause :=
  if !facts.hasActiveContract then some .noActiveContract
  else if !facts.contractLinkedToInvoice then some .unlinkedContract
  else none

/-- Modelled from the spec (section 4.3): `Unexpected Cost` qualifies when
the relative Conditions contribution reaches its threshold and the condition
type is not part of the PO base price. -/
def ucQualifies (th : Thresholds) (d : Decomposition) (facts : AuxFacts) : Bool :=
  facts.conditionTypeNotInBase &&
    |d.conditions| / |d.postedUnitPriceEUR| ≥ th.conditionsPct

/-- Modelled from the spec (section 4.3): `Material Price Fluctuation`
qualifies when the relative Residual contribution reaches its threshold and
no contract issue was found. -/
def mpfQualifies (th : Thresholds) (d : Decomposition) (facts : AuxFacts) : Bool :=
  (contractCauseOf facts).isNone &&
    |d.residual| / |d.postedUnitPriceEUR| ≥ th.residualPct

/-- Modelled from the spec (section 4.3): of the qualifying price-related
causes, only the one with the largest-magnitude driving contribution is
selected. -/
def priceCauseOf (th : Thresholds) (d : Decomposition) (facts : AuxFacts) :
    Option Cause :=
  match ucQualifies th d facts, mpfQualifies th d facts with
  | true, true =>
    if |d.residual| > |d.conditions| then some .materialPriceFluctuation
    else some .unexpectedCost
  | true, false => some .unexpectedCost
  | false, true => some .materialPriceFluctuation
  | false, false => none

/-- Modelled from the spec (section 4.3): the ranked cause list — at most
one contract cause, taking precedence, followed by at most the single
largest-magnitude qualifying price cause; empty when no branch qualifies. -/
def classify (th : Thresholds) (d : Decomposition) (facts : AuxFacts) : List Cause :=
  (contractCauseOf facts).toList ++ (priceCauseOf th d facts).toList

/-- Modelled from the spec (section 4.5) and the source decision tree: the
static cause-to-actions catalog, `(resolution, prevention)` per cause. -/
def actionCatalog : Cause → List String × List String
  | .materialPriceFluctuation =>
    (["Suggest revised invoice", "Align master-data price with supplier"],
     ["Proactive price-change alert", "Periodic index checks"])
  | .unexpectedCost =>
    (["Request credit note", "Correct invoice: split fee"],
     ["MIRO rule to block fee for this supplier and material"])
  | .noActiveContract =>
    (["Notify buyer and supplier", "Draft contract from benchmark", "RFQ if needed"],
     ["Park invoices without contract", "Add catalog reference",
      "Update supplier playbook"])
  | .unlinkedContract =>
    (["Link correct contract", "Credit memo for delta with attached PDF"],
     ["Default linking", "Alert when invoice arrives without contract"])

/-- Modelled from the spec (section 4.5): union the actions of the selected
causes in ranked order, deduplicate by content, and cap each box at three
entries. -/
def actionsFor (causes : List Cause) : List String × List String :=
  ((causes.flatMap fun c => (actionCatalog c).1).eraseDups.take 3,
   (causes.flatMap fun c => (actionCatalog c).2).eraseDups.take 3)

/-- Modelled from the spec (section 4.4): the materiality threshold of the
external-context lookup, 3%. -/
def materialityThreshold : ℚ := 3 / 100

/-- Modelled from the spec (section 4.4): the lookup triggers only when
`Material Price Fluctuation` was selected (Residual is a driving
contribution) and the Residual reaches 3% of the total variance, boundary
inclusive. -/
def externalLookupTriggered (causes : List Cause) (residual totalVar : ℚ) : Bool :=
  causes.contains .materialPriceFluctuation &&
    |residual| / |totalVar| ≥ materialityThreshold

/-- Modelled from the spec: the `{sentence, sourceLink}` payload of the
external-context capability. -/
structure ExternalContext where
  sentence : String
  sourceLink : String
deriving DecidableEq, Repr

/-- Modelled from the spec (section 4.4): the observable outcome of one
call to the injected external-context capability. -/
inductive LookupOutcome where
  | ok (ctx : ExternalContext)
  | failed
  | timedOut
deriving DecidableEq, Repr

/-- Modelled from the spec (section 4.4): an erroring or timed-out lookup
degrades to an absent context. -/
def resolveLookup : LookupOutcome → Option ExternalContext
  | .ok c => some c
  | .failed => none
  | .timedOut => none

/-- Modelled from the spec (section 3): the produced `VarianceResult`. -/
structure VarianceResult where
  decomposition : Decomposition
  rootCauses : List Cause
  resolutionActions : List String
  preventionActions : List String
  externalContext : Option ExternalContext
deriving DecidableEq, Repr

/-- Modelled from the spec (section 6): everything the data-access
capability supplies for one PO item, plus the outcome the external-context
capability would produce if invoked. -/
structure ItemInput where
  po : POItem
  invoices : List InvoiceItem
  conditions : List ConditionRow
  facts : AuxFacts
  lookup : LookupOutcome
deriving DecidableEq, Repr

/-- Modelled from the spec (sections 4.2-4.5): the full per-item pipeline —
decompose, classify, recommend actions, and attach external context only
when the materiality gate triggers, degrading to `none` when the lookup
fails. -/
def computeItem (env : EngineEnv) (th : Thresholds) (item : ItemInput) :
    Except EngineError VarianceResult :=
  match decompose env item.po item.invoices item.conditions with
  | .error e => .error e
  | .ok d =>
    let causes := classify th d item.facts
    let acts := actionsFor causes
    let ctx :=
      if externalLookupTriggered causes d.residual (totalVariance d) then
        resolveLookup item.lookup
      else none
    .ok ⟨d, causes, acts.1, acts.2, ctx⟩

/-- The identity of a PO item inside a batch. -/
def itemKey (item : ItemInput) : String × String :=
  (item.po.purchaseOrder, item.po.purchaseOrderItem)

/-- Modelled from the spec (section 7): the identity and failure reason of
a failed item, as recorded in the aggregate output. -/
structure ItemFailure where
  key : String × String
  reason : EngineError
deriving DecidableEq, Repr

/-- Modelled from the spec (sections 6-7): the aggregate output of a
multi-item request — the per-item results plus the failed items. -/
structure BatchOutput where
  results : List ((String × String) × VarianceResult)
  failures : List ItemFailure
deriving DecidableEq, Repr

/-- Modelled from the spec (section 7): every item is processed
independently; a fatal per-item error is recorded with the item identity
and reason while all remaining items keep being processed. -/
def processBatch (env : EngineEnv) (th : Thresholds) :
    List ItemInput → BatchOutput
  | [] => ⟨[], []⟩
  | item :: rest =>
    let acc := processBatch env th rest
    match computeItem env th item with
    | .ok r => ⟨(itemKey item, r) :: acc.results, acc.failures⟩
    | .error e => ⟨acc.results, ⟨itemKey item, e⟩ :: acc.failures⟩

end PPV

namespace Wish

/-- JavaScript values as produced by `JSON.parse`: the JSON value tree. -/
inductive Json where
  | null
  | bool (b : Bool)
  | num (q : ℚ)
  | str (s : String)
  | arr (elems : List Json)
  | obj (fields : List (String × Json))

/-- Property access `j[k]` on a parsed value: `none` plays the role of
JavaScript `undefined` (absent field, or access on a non-object). -/
def getField : Json → String → Option Json
  | .obj fields, k => (fields.find? fun f => f.1 = k).map (·.2)
  | _, _ => none

/-- JavaScript nullish filtering: `null` and `undefined` collapse to
`none`, every other value stays. -/
def nullish : Option Json → Option Json
  | none => none
  | some .null => none
  | some j => some j

/-- The JavaScript nullish-coalescing chain `a ?? b`. -/
def coalesce (a b : Option Json) : Option Json :=
  match nullish a with
  | some j => some j
  | none => nullish b

/-- JavaScript truthiness of a possibly-undefined value: `undefined`,
`null`, `false`, `0` and the empty string are falsy. -/
def truthy : Option Json → Bool
  | none => false
  | some .null => false
  | some (.bool b) => b
  | some (.num q) => q != 0
  | some (.str s) => s != ""
  | some (.arr _) => true
  | some (.obj _) => true

/-- Rendering of a number by `String(...)`, abstracted: integers render as
their digits, non-integers as numerator/denominator. -/
def jsNumString (q : ℚ) : String :=
  if q.den = 1 then toString q.num else toString q.num ++ "/" ++ toString q.den

/-- The JavaScript `String(...)` conversion: strings pass through, arrays
join their rendered elements with commas, objects render opaquely. -/
def jsString : Json → String
  | .null => "null"
  | .bool true => "true"
  | .bool false => "false"
  | .num q => jsNumString q
  | .str s => s
  | .arr elems => String.intercalate "," (elems.attach.map fun e => jsString e.1)
  | .obj _ => "[object Object]"
decreasing_by
  have := List.sizeOf_lt_of_mem e.2
  simp only [Json.arr.sizeOf_spec]
  omega

/-- Type `DemoTableColumn` from `src/api/mock.ts`; the optional fields are
`Option`-valued because the mock data leaves some of them out. -/
structure DemoTableColumn where
  name : String
  type : String
  description : Option String
  nullable : Option Bool
  isPrimaryKey : Option Bool

/-- Type `DemoTableRow` from `src/api/mock.ts`: a record of cell values. -/
def DemoTableRow : Type := List (String × Json)

/-- Type `DemoTable` from `src/api/mock.ts`. -/
structure DemoTable where
  name : String
  desc : String
  columns : List DemoTableColumn
  rows : List DemoTableRow

/-- Type `DemoPackageResponse` from `src/api/mock.ts`. -/
structure DemoPackageResponse where
  schemaName : String
  tables : List DemoTable
  agentPrompt : String
  agentName : String
  businessCaseCard : String

/-- One column mapped by `ensureColumns` in `src/api/perplexity.ts`:
defaults for name and type, truthiness-guarded description, `nullable`
defaulting to `true` only when the field is absent, and
`Boolean(col.isPrimaryKey ?? false)`. -/
def parseColumn (col : Json) : DemoTableColumn :=
  { name := jsString ((nullish (getField col "name")).getD (.str ""))
    type := jsString ((nullish (getField col "type")).getD (.str "NVARCHAR(255)"))
    description :=
      match getField col "description" with
      | some d => if truthy (some d) then some (jsString d) else none
      | none => none
    nullable :=
      some (match getField col "nullable" with
        | none => true
        | some j => truthy (some j))
    isPrimaryKey :=
      some (truthy (some ((nullish (getField col "isPrimaryKey")).getD (.bool false)))) }

/-- Function `ensureColumns` from `src/api/perplexity.ts`: requires `table.columns`
to be an array, else fails with `Table columns missing`. -/
def ensureColumns (table : Json) : Except String (List DemoTableColumn) :=
  match getField table "columns" with
  | some (.arr cols) => .ok (cols.map parseColumn)
  | _ => .error "Table columns missing"

/-- One row checked by `ensureRows`: it must be a non-null, non-array
object. -/
def rowFields : Json → Except String DemoTableRow
  | .obj fields => .ok fields
  | _ => .error "Table row must be an object"

/-- Exception-propagating list map, as a thrown exception aborts a
JavaScript `Array.prototype.map`. -/
def mapExcept (f : α → Except String β) : List α → Except String (List β)
  | [] => .ok []
  | x :: xs =>
    match f x with
    | .error e => .error e
    | .ok y =>
      match mapExcept f xs with
      | .error e => .error e
      | .ok ys => .ok (y :: ys)

/-- Function `ensureRows` from `src/api/perplexity.ts`: a missing or non-array
`rows` yields `[]`; a row that is not an object throws. -/
def ensureRows (table : Json) : Except String (List DemoTableRow) :=
  match getField table "rows" with
  | some (.arr rows) => mapExcept rowFields rows
  | _ => .ok []

/-- One table of the `parseContent` output at position `index`: name
defaults to `TABLE_{index+1}` (index is zero-based), description falls back
from `desc` to `description` to a fixed default, and columns/rows go
through their `ensure*` checks. -/
def parseTable (index : Nat) (table : Json) : Except String DemoTable :=
  match ensureColumns table with
  | .error e => .error e
  | .ok cols =>
    match ensureRows table with
    | .error e => .error e
    | .ok rows =>
      .ok
        { name := jsString ((nullish (getField table "name")).getD
            (.str ("TABLE_" ++ toString (index + 1))))
          desc := jsString ((coalesce (getField table "desc")
            (getField table "description")).getD
            (.str "No description provided by Joule."))
          columns := cols
          rows := rows }

/-- Maps `parseTable` over a table list, numbering from `i`. -/
def parseTables (i : Nat) : List Json → Except String (List DemoTable)
  | [] => .ok []
  | t :: rest =>
    match parseTable i t with
    | .error e => .error e
    | .ok tbl =>
      match parseTables (i + 1) rest with
      | .error e => .error e
      | .ok tbls => .ok (tbl :: tbls)

/-- Function `parseContent` from `src/api/perplexity.ts`, on the already-parsed JSON
value (code-fence stripping and `JSON.parse` are library behavior outside
this embedding): fails with `Perplexity response missing tables array`
unless `tables` is an array, keeps only the first 10 tables, and applies
the defaulting of `parseTable` and the top-level field fallbacks. -/
def parseContentJson (parsed : Json) : Except String DemoPackageResponse :=
  match getField parsed "tables" with
  | some (Json.arr ts) =>
    match parseTables 0 (ts.take 10) with
    | .error e => .error e
    | .ok tables =>
      .ok
        { schemaName := jsString ((coalesce (getField parsed "schemaName")
            (getField parsed "schema")).getD (.str "JOULE_DEMO_SCHEMA"))
          tables := tables
          agentPrompt := jsString ((coalesce (getField parsed "agentPrompt")
            (getField parsed "prompt")).getD (.str ""))
          agentName := jsString ((coalesce (getField parsed "agentName")
            (getField parsed "name")).getD (.str "SAP Joule Agent"))
          businessCaseCard := jsString ((coalesce (getField parsed "businessCaseCard")
            (getField parsed "businessCase")).getD (.str "")) }
  | _ => .error "Perplexity response missing tables array"

/-- The static `baseTables` list of `src/api/mock.ts`. -/
def baseTables : List DemoTable :=
  [ { name := "CUS_MASTER_PROFILE"
      desc := "Unified customer master data with segmentation attributes and consent flags."
      columns :=
        [ ⟨"CUSTOMER_ID", "NVARCHAR(40)", some "Unique customer identifier", some false, some true⟩
        , ⟨"CUSTOMER_NAME", "NVARCHAR(120)", some "Display name for the customer or account", none, none⟩
        , ⟨"INDUSTRY", "NVARCHAR(60)", some "Industry classification", none, none⟩
        , ⟨"REGION", "NVARCHAR(40)", some "Primary operating region", none, none⟩
        , ⟨"HEALTH_SCORE", "DECIMAL(5,2)", some "Composite health score 0-100", none, none⟩ ]
      rows :=
        [ [ ("CUSTOMER_ID", .str "CUST-001"), ("CUSTOMER_NAME", .str "Launch Partner Holdings")
          , ("INDUSTRY", .str "Professional Services"), ("REGION", .str "EMEA")
          , ("HEALTH_SCORE", .num 82.5) ]
        , [ ("CUSTOMER_ID", .str "CUST-002"), ("CUSTOMER_NAME", .str "Launch Partner Holdings")
          , ("INDUSTRY", .str "Professional Services"), ("REGION", .str "North America")
          , ("HEALTH_SCORE", .num 77.3) ] ] }
  , { name := "CUS_TOUCHPOINT_EVENTS"
      desc := "Stream of omni-channel engagement events with sentiment scoring."
      columns :=
        [ ⟨"EVENT_ID", "NVARCHAR(40)", some "Unique event id", some false, some true⟩
        , ⟨"CUSTOMER_ID", "NVARCHAR(40)", some "Link to customer profile", none, none⟩
        , ⟨"CHANNEL", "NVARCHAR(30)", some "Touchpoint channel name", none, none⟩
        , ⟨"EVENT_TS", "TIMESTAMP", some "Event timestamp", none, none⟩
        , ⟨"SENTIMENT", "DECIMAL(4,2)", some "Sentiment score -1 to 1", none, none⟩ ]
      rows :=
        [ [ ("EVENT_ID", .str "EVT-1001"), ("CUSTOMER_ID", .str "CUST-001")
          , ("CHANNEL", .str "SAP Build Workzone"), ("EVENT_TS", .str "2024-07-25T09:30:00Z")
          , ("SENTIMENT", .num 0.78) ]
        , [ ("EVENT_ID", .str "EVT-1002"), ("CUSTOMER_ID", .str "CUST-001")
          , ("CHANNEL", .str "SAP Store Chat"), ("EVENT_TS", .str "2024-07-25T12:15:00Z")
          , ("SENTIMENT", .num (-0.12)) ] ] }
  , { name := "CUS_SUPPORT_CASES"
      desc := "Ticket backlog enriched with priority, SLA timers, and resolution KPIs."
      columns :=
        [ ⟨"CASE_ID", "NVARCHAR(40)", some "Support case identifier", some false, some true⟩
        , ⟨"CUSTOMER_ID", "NVARCHAR(40)", some "Related customer", none, none⟩
        , ⟨"PRIORITY", "NVARCHAR(20)", some "Ticket priority description", none, none⟩
        , ⟨"SLA_STATUS", "NVARCHAR(20)", some "SLA met/at risk/breached state", none, none⟩
        , ⟨"RESOLUTION_HOURS", "DECIMAL(6,2)", some "Resolution time in hours", none, none⟩ ]
      rows :=
        [ [ ("CASE_ID", .str "CASE-9001"), ("CUSTOMER_ID", .str "CUST-001")
          , ("PRIORITY", .str "High"), ("SLA_STATUS", .str "At Risk")
          , ("RESOLUTION_HOURS", .num 32.5) ] ] }
  , { name := "CUS_VALUE_METRICS"
      desc := "Rolling 360-degree lifetime value metrics including churn propensity."
      columns :=
        [ ⟨"CUSTOMER_ID", "NVARCHAR(40)", none, some false, some true⟩
        , ⟨"ARR", "DECIMAL(15,2)", some "Annual recurring revenue", none, none⟩
        , ⟨"NRR", "DECIMAL(5,2)", some "Net revenue retention percentage", none, none⟩
        , ⟨"CHURN_PROPENSITY", "DECIMAL(4,2)", some "Predicted churn probability", none, none⟩
        , ⟨"UPDATED_AT", "DATE", some "Date of calculation", none, none⟩ ]
      rows :=
        [ [ ("CUSTOMER_ID", .str "CUST-001"), ("ARR", .num 1280000.0)
          , ("NRR", .num 114.5), ("CHURN_PROPENSITY", .num 0.18)
          , ("UPDATED_AT", .str "2024-07-24") ] ] }
  , { name := "CUS_INFLUENCERS"
      desc := "Relationship graph data for buying centers and key influencers."
      columns :=
        [ ⟨"NODE_ID", "NVARCHAR(40)", none, some false, some true⟩
        , ⟨"CUSTOMER_ID", "NVARCHAR(40)", none, none, none⟩
        , ⟨"CONTACT_NAME", "NVARCHAR(120)", none, none, none⟩
        , ⟨"ROLE", "NVARCHAR(80)", none, none, none⟩
        , ⟨"INFLUENCE_SCORE", "DECIMAL(4,2)", none, none, none⟩ ]
      rows :=
        [ [ ("NODE_ID", .str "NODE-1"), ("CUSTOMER_ID", .str "CUST-001")
          , ("CONTACT_NAME", .str "Meera Ghose"), ("ROLE", .str "Executive Sponsor")
          , ("INFLUENCE_SCORE", .num 0.92) ] ] }
  , { name := "CUS_SUCCESS_PLANS"
      desc := "Customer success plan milestones, owners, and success indicators."
      columns :=
        [ ⟨"PLAN_ID", "NVARCHAR(40)", none, some false, some true⟩
        , ⟨"CUSTOMER_ID", "NVARCHAR(40)", none, none, none⟩
        , ⟨"MILESTONE", "NVARCHAR(120)", none, none, none⟩
        , ⟨"OWNER", "NVARCHAR(120)", none, none, none⟩
        , ⟨"TARGET_DATE", "DATE", none, none, none⟩
        , ⟨"STATUS", "NVARCHAR(30)", none, none, none⟩ ]
      rows :=
        [ [ ("PLAN_ID", .str "PLAN-2024-Q3"), ("CUSTOMER_ID", .str "CUST-001")
          , ("MILESTONE", .str "Launch Joule guided onboarding"), ("OWNER", .str "Iris Mayer")
          , ("TARGET_DATE", .str "2024-09-15"), ("STATUS", .str "In Progress") ] ] }
  , { name := "CUS_USAGE_HEATMAP"
      desc := "Product usage telemetry aggregated by feature cluster and geography."
      columns :=
        [ ⟨"FEATURE_CLUSTER", "NVARCHAR(80)", none, some false, some true⟩
        , ⟨"REGION", "NVARCHAR(40)", none, some false, some true⟩
        , ⟨"MONTH", "NVARCHAR(7)", some "Year-month bucket", none, none⟩
        , ⟨"ACTIVE_USERS", "INTEGER", some "Active seats during the period", none, none⟩
        , ⟨"USAGE_SCORE", "DECIMAL(4,2)", some "Relative adoption score", none, none⟩ ]
      rows :=
        [ [ ("FEATURE_CLUSTER", .str "Process Automation"), ("REGION", .str "EMEA")
          , ("MONTH", .str "2024-06"), ("ACTIVE_USERS", .num 184)
          , ("USAGE_SCORE", .num 0.81) ] ] }
  , { name := "CUS_FINANCIAL_SUMMARY"
      desc := "Commercial data with ARR, NRR, and upsell potential scoring."
      columns :=
        [ ⟨"CUSTOMER_ID", "NVARCHAR(40)", none, some false, some true⟩
        , ⟨"ANNUAL_SPEND", "DECIMAL(15,2)", none, none, none⟩
        , ⟨"UPSELL_PIPELINE", "DECIMAL(15,2)", none, none, none⟩
        , ⟨"RENEWAL_DATE", "DATE", none, none, none⟩
        , ⟨"FINANCE_NOTES", "NVARCHAR(255)", none, none, none⟩ ]
      rows :=
        [ [ ("CUSTOMER_ID", .str "CUST-001"), ("ANNUAL_SPEND", .num 1580000.0)
          , ("UPSELL_PIPELINE", .num 210000.0), ("RENEWAL_DATE", .str "2025-03-01")
          , ("FINANCE_NOTES", .str "Expansion forecast driven by SAP Joule guided workflows.") ] ] }
  , { name := "CUS_ADOPTION_SIGNALS"
      desc := "Leading indicators from enablement, training, and community activity."
      columns :=
        [ ⟨"SIGNAL_ID", "NVARCHAR(40)", none, some false, some true⟩
        , ⟨"CUSTOMER_ID", "NVARCHAR(40)", none, none, none⟩
        , ⟨"SIGNAL_TYPE", "NVARCHAR(80)", none, none, none⟩
        , ⟨"SIGNAL_TS", "TIMESTAMP", none, none, none⟩
        , ⟨"SEVERITY", "NVARCHAR(20)", none, none, none⟩ ]
      rows :=
        [ [ ("SIGNAL_ID", .str "SIG-7788"), ("CUSTOMER_ID", .str "CUST-001")
          , ("SIGNAL_TYPE", .str "Training Completion"), ("SIGNAL_TS", .str "2024-07-20T08:00:00Z")
          , ("SEVERITY", .str "Positive") ] ] }
  , { name := "CUS_HEALTH_INDEX"
      desc := "Composite health score incorporating support, finance, and advocacy."
      columns :=
        [ ⟨"CUSTOMER_ID", "NVARCHAR(40)", none, some false, some true⟩
        , ⟨"OVERALL_HEALTH", "DECIMAL(4,2)", none, none, none⟩
        , ⟨"SUPPORT_SCORE", "DECIMAL(4,2)", none, none, none⟩
        , ⟨"ADOPTION_SCORE", "DECIMAL(4,2)", none, none, none⟩
        , ⟨"ADVOCACY_SCORE", "DECIMAL(4,2)", none, none, none⟩
        , ⟨"LAST_UPDATED", "DATE", none, none, none⟩ ]
      rows :=
        [ [ ("CUSTOMER_ID", .str "CUST-001"), ("OVERALL_HEALTH", .num 0.84)
          , ("SUPPORT_SCORE", .num 0.76), ("ADOPTION_SCORE", .num 0.88)
          , ("ADVOCACY_SCORE", .num 0.9), ("LAST_UPDATED", .str "2024-07-24") ] ] } ]

/-- The sanitization `replace(/[^a-zA-Z0-9]/g, empty)`: keep only ASCII
letters and digits. -/
def sanitizeAlnum (s : String) : String :=
  String.mk (s.toList.filter fun c => c.isAlpha || c.isDigit)

/-- Function `getMockDemoPackage` from `src/api/mock.ts`: the deterministic mock
payload — trimmed inputs with fixed fallbacks, a sanitized uppercase schema
name cut to 60 characters, the base tables with customer-stamped
descriptions, and templated prompt/name/business-case strings. -/
def getMockDemoPackage (customer useCase : String) : DemoPackageResponse :=
  let safeCustomer := if customer.trim = "" then "Launch Partner" else customer.trim
  let safeUseCase :=
    if useCase.trim = "" then "experience orchestration" else useCase.trim
  let firstWord := (safeUseCase.splitOn " ").headD "Insight"
  let rawSchema := "JOULE_" ++ (sanitizeAlnum safeCustomer).toUpper ++ "_" ++
    (sanitizeAlnum safeUseCase).toUpper
  { schemaName :=
      if rawSchema.take 60 = "" then "JOULE_DEMO_SCHEMA" else rawSchema.take 60
    agentName := "SAP Joule " ++ safeCustomer ++ " " ++ firstWord ++ " Navigator"
    agentPrompt := "You are SAP Joule, the Make-a-Wish demo agent named " ++
      safeCustomer ++ " " ++ firstWord.toUpper ++
      " Navigator. Craft an immersive story showing how SAP BTP, SAP Build, SAP Joule assistants, and SAP AI Core accelerate " ++
      safeUseCase ++ " for " ++ safeCustomer ++
      ". Blend SAP Fiori UX and Apple glass-inspired visuals while citing the curated 10-table dataset. Keep responses grounded in SAP terminology, compliance, and go-live readiness steps. End each hand-off with a Joule tip."
    tables := baseTables.enum.map fun p =>
      { p.2 with desc :=
          if p.1 = 0 then
            p.2.desc ++ " Tailored to " ++ safeCustomer ++
              "\x27s profile and " ++ safeUseCase ++
              " success criteria, stamped by SAP Joule."
          else p.2.desc ++ " Powered by Joule insights for " ++ safeCustomer ++ "." }
    businessCaseCard := "📊 Business Case Card\n🔎 Problem: " ++ safeCustomer ++
      " teams struggle to align on " ++ safeUseCase ++
      " KPIs across silos.\n💡 Solution: Deploy an event-driven SAP BTP cockpit with guided SAP Joule agents, Fiori workzones, and Perplexity research boosts.\n🎯 Benefits: Harmonised data flows, proactive adoption nudges, and faster value realization with Joule guardrails.\n💰 ROI: 28% lift in expansion revenue, 35% faster onboarding, and reduced support backlog thanks to Joule-assisted automation." }

/-- The observable environment of one `fetchJouleDemoFromPerplexity` call:
the configured API key, the HTTP outcome, and the outcome of extracting and
JSON-parsing `choices[0].message.content` (outer `none` = content missing
or falsy, inner `none` = `JSON.parse` threw). -/
structure FetchEnv where
  apiKey : Option String
  httpOk : Bool
  httpStatus : Nat
  httpErrorText : String
  contentOutcome : Option (Option Json)

/-- Function `fetchJouleDemoFromPerplexity` from `src/api/perplexity.ts`: rejects on
a missing or empty API key, a non-ok HTTP response, missing content, a JSON
parse failure, a `parseContent` failure, or an empty business-case card;
otherwise returns the parsed package. -/
def fetchJouleDemoFromPerplexity (env : FetchEnv) : Except String DemoPackageResponse :=
  if (env.apiKey.getD "") = "" then
    .error "Missing Perplexity API key in VITE_PPLX_API_KEY"
  else if !env.httpOk then
    .error ("Perplexity API error: " ++ toString env.httpStatus ++ " " ++
      env.httpErrorText)
  else
    match env.contentOutcome with
    | none => .error "Perplexity response missing content"
    | some none => .error "Unexpected token in JSON"
    | some (some parsed) =>
      match parseContentJson parsed with
      | .error e => .error e
      | .ok pkg =>
        if pkg.businessCaseCard = "" then .error "Business case card missing"
        else .ok pkg

/-- Function `generateDemoPackage` from `src/App.tsx`: try the Perplexity fetch and
fall back to the deterministic mock package on any rejection. -/
def generateDemoPackage (env : FetchEnv) (customer useCase : String) :
    DemoPackageResponse :=
  match fetchJouleDemoFromPerplexity env with
  | .ok pkg => pkg
  | .error _ => getMockDemoPackage customer useCase

/-- A parsed response whose `tables` field is an array but whose only table
has no `columns` array. -/
def tablesButNoColumns : Json := .obj [("tables", .arr [.obj []])]

/-- C9 counterexample: a parsed JSON value with a `tables` array on which
`parseContent` nevertheless throws (`Table columns missing`), so having a
`tables` array does not suffice for `parseContent` to return a package. -/
theorem wish_C9_parse_counterexample :
    getField tablesButNoColumns "tables" = some (Json.arr [Json.obj []]) ∧
    parseContentJson tablesButNoColumns = .error "Table columns missing" := by
  constructor <;> rfl

/-- `parseTables` preserves the length of its input when it succeeds. -/
theorem parseTables_length :
    ∀ (i : Nat) (l : List Json) (out : List DemoTable),
      parseTables i l = .ok out → out.length = l.length := by
  intro i l
  induction l generalizing i with
  | nil =>
    intro out h
    obtain rfl := Except.ok.inj h
    rfl
  | cons t rest ih =>
    intro out h
    unfold parseTables at h
    cases hT : parseTable i t with
    | error e => rw [hT] at h; exact absurd h (by simp)
    | ok tbl =>
      rw [hT] at h
      cases hR : parseTables (i + 1) rest with
      | error e => rw [hR] at h; exact absurd h (by simp)
      | ok tbls =>
        rw [hR] at h
        obtain rfl := Except.ok.inj h
        simp [ih _ _ hR]

/-- C9 amended: `parseContent` throws when the parsed JSON has no `tables`
array; whenever it does return a package the tables list was truncated to
at most 10 entries (exactly `min` of the provider count and 10); and each
kept table gets the positional `TABLE_{i+1}` name default and the fixed
description default when the provider omits them.  (Unlike the original
claim, a `tables` array does not guarantee a return: a kept table without
a `columns` array, or with a non-object row, still makes it throw.) -/
theorem wish_C9_parse_tables_amended :
    (∀ parsed : Json,
      (∀ ts, getField parsed "tables" ≠ some (Json.arr ts)) →
      parseContentJson parsed =
        .error "Perplexity response missing tables array") ∧
    (∀ (parsed : Json) (pkg : DemoPackageResponse),
      parseContentJson parsed = .ok pkg → pkg.tables.length ≤ 10) ∧
    (∀ (parsed : Json) (ts : List Json) (pkg : DemoPackageResponse),
      getField parsed "tables" = some (Json.arr ts) →
      parseContentJson parsed = .ok pkg →
      pkg.tables.length = min ts.length 10) ∧
    (∀ (i : Nat) (t : Json) (tbl : DemoTable), parseTable i t = .ok tbl →
      (nullish (getField t "name") = none →
        tbl.name = "TABLE_" ++ toString (i + 1)) ∧
      (coalesce (getField t "desc") (getField t "description") = none →
        tbl.desc = "No description provided by Joule.")) := by
  refine ⟨?_, ?_, ?_, ?_⟩
  · intro parsed h
    unfold parseContentJson
    cases hT : getField parsed "tables" with
    | none => rfl
    | some j =>
      cases j with
      | arr ts => exact absurd hT (h ts)
      | null => rfl
      | bool b => rfl
      | num q => rfl
      | str s => rfl
      | obj fs => rfl
  · intro parsed pkg h
    unfold parseContentJson at h
    split at h
    · rename_i ts heq
      cases hP : parseTables 0 (ts.take 10) with
      | error e => rw [hP] at h; simp at h
      | ok tables =>
        rw [hP] at h
        simp at h
        subst h
        show tables.length ≤ 10
        rw [parseTables_length _ _ _ hP, List.length_take]
        exact Nat.min_le_left _ _
    · simp at h
  · intro parsed ts pkg hT h
    unfold parseContentJson at h
    split at h
    · rename_i ts2 heq
      rw [hT] at heq
      obtain rfl := Json.arr.inj (Option.some.inj heq)
      cases hP : parseTables 0 (ts.take 10) with
      | error e => rw [hP] at h; simp at h
      | ok tables =>
        rw [hP] at h
        simp at h
        subst h
        show tables.length = min ts.length 10
        rw [parseTables_length _ _ _ hP, List.length_take, Nat.min_comm]
    · simp at h
  · intro i t tbl h
    unfold parseTable at h
    cases hC : ensureColumns t with
    | error e => rw [hC] at h; simp at h
    | ok cols =>
      rw [hC] at h
      cases hR : ensureRows t with
      | error e => rw [hR] at h; simp at h
      | ok rows =>
        rw [hR] at h
        simp at h
        subst h
        constructor
        · intro hn
          show jsString ((nullish (getField t "name")).getD
            (.str ("TABLE_" ++ toString (i + 1)))) = "TABLE_" ++ toString (i + 1)
          rw [hn]
          simp [jsString]
        · intro hd
          show jsString ((coalesce (getField t "desc")
            (getField t "description")).getD
            (.str "No description provided by Joule.")) =
              "No description provided by Joule."
          rw [hd]
          simp [jsString]

/-- A provider table carrying only empty `columns` and `rows` arrays. -/
def goodTableJson : Json := .obj [("columns", .arr []), ("rows", .arr [])]

/-- A parsed response with a one-entry `tables` array. -/
def goodParsedJson : Json := .obj [("tables", .arr [goodTableJson])]

/-- The table `parseContent` produces for `goodTableJson` at index 0. -/
def goodResultTable : DemoTable :=
  ⟨"TABLE_1", "No description provided by Joule.", [], []⟩

/-- The package `parseContent` produces for `goodParsedJson`. -/
def goodPkg : DemoPackageResponse :=
  ⟨"JOULE_DEMO_SCHEMA", [goodResultTable], "", "SAP Joule Agent", ""⟩

/-- C9 witness: on a concrete one-table response the returned package has
`min 1 10` tables; parsing `null` fails with the missing-tables error; and
the name and description defaults are applied to the concrete table. -/
theorem wish_C9_parse_tables_amended_witness :
    goodPkg.tables.length = min 1 10 ∧
    parseContentJson Json.null =
      .error "Perplexity response missing tables array" ∧
    goodResultTable.name = "TABLE_" ++ toString (0 + 1) :=
  ⟨wish_C9_parse_tables_amended.2.2.1 goodParsedJson [goodTableJson] goodPkg
      (by rfl)
      (by
        simp [parseContentJson, parseTables, parseTable, ensureColumns,
          ensureRows, getField, nullish, coalesce, jsString, mapExcept,
          rowFields, goodParsedJson, goodTableJson, goodResultTable, goodPkg]
        try rfl),
    wish_C9_parse_tables_amended.1 Json.null
      (by intro ts h; simp [getField] at h),
    (wish_C9_parse_tables_amended.2.2.2 0 goodTableJson goodResultTable
        (by
          simp [parseTable, ensureColumns, ensureRows, getField, nullish,
            coalesce, jsString, mapExcept, rowFields, goodTableJson,
            goodResultTable]
          try rfl)).1 (by rfl)⟩

/-- A fetch environment with no API key configured. -/
def envNoKey : FetchEnv := ⟨none, true, 200, "", some (some (.obj []))⟩

/-- A fetch environment with an empty API key. -/
def envEmptyKey : FetchEnv := ⟨some "", true, 200, "", some (some (.obj []))⟩

/-- A fetch environment whose HTTP call fails with status 500. -/
def envHttpFail : FetchEnv := ⟨some "k", false, 500, "boom", none⟩

/-- A fetch environment whose response carries no content. -/
def envNoContent : FetchEnv := ⟨some "k", true, 200, "", none⟩

/-- A fetch environment whose content does not parse as JSON. -/
def envBadJson : FetchEnv := ⟨some "k", true, 200, "", some none⟩

/-- C10: `generateDemoPackage` never propagates a Perplexity failure — any
rejection of `fetchJouleDemoFromPerplexity` falls back to the deterministic
`getMockDemoPackage(customer, useCase)`, a successful fetch is passed
through, and the concrete rejection reasons (missing key, empty key, HTTP
error, missing content, unparsable content) all reject. -/
theorem wish_C10_fallback :
    (∀ (env : FetchEnv) (c u e : String),
      fetchJouleDemoFromPerplexity env = .error e →
      generateDemoPackage env c u = getMockDemoPackage c u) ∧
    (∀ (env : FetchEnv) (c u : String) (pkg : DemoPackageResponse),
      fetchJouleDemoFromPerplexity env = .ok pkg →
      generateDemoPackage env c u = pkg) ∧
    fetchJouleDemoFromPerplexity envNoKey =
      .error "Missing Perplexity API key in VITE_PPLX_API_KEY" ∧
    fetchJouleDemoFromPerplexity envEmptyKey =
      .error "Missing Perplexity API key in VITE_PPLX_API_KEY" ∧
    fetchJouleDemoFromPerplexity envHttpFail =
      .error ("Perplexity API error: " ++ toString (500 : Nat) ++ " " ++ "boom") ∧
    fetchJouleDemoFromPerplexity envNoContent =
      .error "Perplexity response missing content" ∧
    fetchJouleDemoFromPerplexity envBadJson =
      .error "Unexpected token in JSON" := by
  refine ⟨?_, ?_, ?_, ?_, ?_, ?_, ?_⟩
  · intro env c u e h
    unfold generateDemoPackage
    rw [h]
  · intro env c u pkg h
    unfold generateDemoPackage
    rw [h]
  · rfl
  · rfl
  · rfl
  · rfl
  · rfl

/-- C10 witness: with no API key configured the generator returns exactly
the mock package. -/
theorem wish_C10_fallback_witness :
    generateDemoPackage envNoKey "ACME" "supplier sourcing" =
      getMockDemoPackage "ACME" "supplier sourcing" :=
  wish_C10_fallback.1 envNoKey "ACME" "supplier sourcing"
    "Missing Perplexity API key in VITE_PPLX_API_KEY" (by rfl)

end Wish

namespace PPV

/-- A sample engine configuration: no FX or UoM tables, no holidays, the
documented 10-day lookback, `ZFR1` disallowed, 1e-6 relative tolerance. -/
def sampleEnv : EngineEnv :=
  ⟨[], [], [], 10, ["ZFR1"], 1 / 1000000⟩

/-- A sample EUR purchase-order item: 1000 units at 2 EUR per unit. -/
def samplePO : POItem :=
  ⟨"PO1", "10", "1000", "SUP1", "MAT1", 1000, 1, 2, "EUR", "PL1", 0, "EA"⟩

/-- A sample invoice item: 100 units for 1000 EUR. -/
def sampleInvoice : InvoiceItem :=
  ⟨"INV1", 2025, "1", 100, 1000, "EUR", 0, "RE", "EA"⟩

/-- A credit memo netting against `sampleInvoice`: -10 units, -100 EUR. -/
def sampleCreditMemo : InvoiceItem :=
  ⟨"INV2", 2025, "1", -10, -100, "EUR", 0, "KR", "EA"⟩

/-- The decomposition `decompose` produces for `samplePO` with
`sampleInvoice`: posted 10 versus ordered 2, all of it residual. -/
def sampleDecomposition : Decomposition :=
  ⟨2, 10, 10, 400, 400, 0, 0, 0, 8⟩

/-- A deliberately inconsistent decomposition: the buckets sum to 1 while
the total variance is 0. -/
def brokenDecomposition : Decomposition :=
  ⟨2, 2, 2, 0, 0, 1, 0, 0, 0⟩

/-- `finalizeDecomposition` releases a decomposition exactly as checked. -/
theorem finalizeDecomposition_ok {env : EngineEnv} {d r : Decomposition}
    (h : finalizeDecomposition env d = .ok r) :
    r = d ∧ invariantOK env.tolerance d = true := by
  unfold finalizeDecomposition at h
  split at h
  · exact ⟨(Except.ok.inj h).symm, by assumption⟩
  · exact absurd h (by simp)

/-- Every decomposition built by `mkDecomposition` conserves the total
variance exactly. -/
theorem sumContributions_mkDecomposition (a b c d e : ℚ) :
    sumContributions (mkDecomposition a b c d e) =
      totalVariance (mkDecomposition a b c d e) := by
  simp only [sumContributions, totalVariance, mkDecomposition]
  ring

/-- C1: every decomposition the engine returns satisfies
`Conditions + FX + UoM + Residual = postedUnitPriceEUR - poUnitPriceEUR`
exactly (hence within the 1e-6 relative tolerance), and a decomposition
that violates the conservation check is never released: finalization fails
with `DecompositionInvariantError` instead of returning it silently. -/
theorem ppv_C1_decomposition_invariant :
    (∀ (env : EngineEnv) (po : POItem) (invoices : List InvoiceItem)
      (conds : List ConditionRow) (r : Decomposition),
      decompose env po invoices conds = .ok r →
      sumContributions r = totalVariance r ∧
        invariantOK env.tolerance r = true) ∧
    (∀ (env : EngineEnv) (d : Decomposition),
      invariantOK env.tolerance d = false →
      finalizeDecomposition env d = .error .decompositionInvariant) := by
  constructor
  · intro env po invoices conds r h
    unfold decompose at h
    repeat' split at h
    all_goals try exact absurd h (by simp)
    obtain ⟨rfl, hInv⟩ := finalizeDecomposition_ok h
    exact ⟨sumContributions_mkDecomposition _ _ _ _ _, hInv⟩
  · intro env d h
    unfold finalizeDecomposition
    simp [h]

/-- C1 witness: on the concrete sample PO item the engine returns a
decomposition and the buckets sum to the total variance; the broken
decomposition is rejected with `DecompositionInvariantError`. -/
theorem ppv_C1_decomposition_invariant_witness :
    (sumContributions sampleDecomposition = totalVariance sampleDecomposition ∧
      invariantOK sampleEnv.tolerance sampleDecomposition = true) ∧
    finalizeDecomposition sampleEnv brokenDecomposition =
      .error .decompositionInvariant :=
  ⟨ppv_C1_decomposition_invariant.1 sampleEnv samplePO [sampleInvoice] []
      sampleDecomposition (by
        norm_num [decompose, toEUR, aggregateInvoices, convertQuantity,
          disallowedFeeSum, fxBucket, uomBucket, mkDecomposition,
          finalizeDecomposition, invariantOK, sumContributions, totalVariance,
          sampleEnv, samplePO, sampleInvoice, sampleDecomposition]),
    ppv_C1_decomposition_invariant.2 sampleEnv brokenDecomposition (by
      norm_num [invariantOK, sumContributions, totalVariance,
        brokenDecomposition, sampleEnv])⟩

/-- A selected contract cause is one of the two contract-related labels. -/
theorem contractCauseOf_isContract {facts : AuxFacts} {c : Cause}
    (h : contractCauseOf facts = some c) : c.isContractCause = true := by
  unfold contractCauseOf at h
  split_ifs at h
  · obtain rfl := Option.some.inj h; rfl
  · obtain rfl := Option.some.inj h; rfl

/-- A selected price cause is one of the two price-related labels. -/
theorem priceCauseOf_isPrice {th : Thresholds} {d : Decomposition}
    {facts : AuxFacts} {p : Cause}
    (h : priceCauseOf th d facts = some p) : p.isPriceCause = true := by
  unfold priceCauseOf at h
  repeat' split at h
  all_goals try (obtain rfl := Option.some.inj h; rfl)
  all_goals simp at h

/-- C2: the classifier returns at most two causes, never two contract
causes or two price causes together; when a contract cause and a price
cause both qualify the result is exactly the contract cause followed by the
single largest-magnitude price cause; and when no branch qualifies the
cause list is empty and the empty cause list maps to empty action boxes. -/
theorem ppv_C2_classifier_shape :
    (∀ (th : Thresholds) (d : Decomposition) (facts : AuxFacts),
      (classify th d facts).length ≤ 2 ∧
      ((classify th d facts).filter Cause.isContractCause).length ≤ 1 ∧
      ((classify th d facts).filter Cause.isPriceCause).length ≤ 1 ∧
      (∀ c p, contractCauseOf facts = some c →
        priceCauseOf th d facts = some p →
        classify th d facts = [c, p] ∧ c.isContractCause = true ∧
          p.isPriceCause = true) ∧
      (ucQualifies th d facts = true → mpfQualifies th d facts = true →
        priceCauseOf th d facts =
          some (if |d.residual| > |d.conditions| then
            Cause.materialPriceFluctuation else Cause.unexpectedCost)) ∧
      (contractCauseOf facts = none → priceCauseOf th d facts = none →
        classify th d facts = [])) ∧
    actionsFor [] = ([], []) := by
  refine ⟨fun th d facts => ?_, rfl⟩
  refine ⟨?_, ?_, ?_, ?_, ?_, ?_⟩
  · cases hC : contractCauseOf facts <;> cases hP : priceCauseOf th d facts <;>
      simp [classify, hC, hP]
  · cases hC : contractCauseOf facts with
    | none =>
      refine le_trans (List.length_filter_le _ _) ?_
      cases hP : priceCauseOf th d facts <;> simp [classify, hC, hP]
    | some c =>
      cases hP : priceCauseOf th d facts with
      | none =>
        refine le_trans (List.length_filter_le _ _) ?_
        simp [classify, hC, hP]
      | some p =>
        have hp : p.isContractCause = false := by
          have h := priceCauseOf_isPrice hP
          simpa [Cause.isPriceCause] using h
        have hc := contractCauseOf_isContract hC
        simp [classify, hC, hP, List.filter_cons, hc, hp]
  · cases hC : contractCauseOf facts with
    | none =>
      refine le_trans (List.length_filter_le _ _) ?_
      cases hP : priceCauseOf th d facts <;> simp [classify, hC, hP]
    | some c =>
      cases hP : priceCauseOf th d facts with
      | none =>
        refine le_trans (List.length_filter_le _ _) ?_
        simp [classify, hC, hP]
      | some p =>
        have hp := priceCauseOf_isPrice hP
        have hc : c.isPriceCause = false := by
          have h := contractCauseOf_isContract hC
          simp [Cause.isPriceCause, h]
        simp [classify, hC, hP, List.filter_cons, hc, hp]
  · intro c p hc hp
    exact ⟨by simp [classify, hc, hp], contractCauseOf_isContract hc,
      priceCauseOf_isPrice hp⟩
  · intro h1 h2
    simp only [priceCauseOf, h1, h2]
    split <;> rfl
  · intro h1 h2
    simp [classify, h1, h2]

/-- The facts of the C2 witness: no active contract, and a condition type
outside the PO base price. -/
def sampleFactsNoContract : AuxFacts := ⟨false, false, true⟩

/-- The decomposition of the C2 witness: posted 2.3 versus ordered 2 with a
0.2 disallowed fee and 0.1 residual. -/
def sampleCondDecomp : Decomposition :=
  ⟨2, 23 / 10, 21 / 10, 15, 5, 1 / 5, 0, 0, 1 / 10⟩

/-- C2 witness: with no active contract and a qualifying fee contribution,
the classifier returns exactly `No Active Contract` followed by
`Unexpected Cost`. -/
theorem ppv_C2_classifier_shape_witness :
    classify defaultThresholds sampleCondDecomp sampleFactsNoContract =
        [Cause.noActiveContract, Cause.unexpectedCost] ∧
      Cause.noActiveContract.isContractCause = true ∧
      Cause.unexpectedCost.isPriceCause = true :=
  (ppv_C2_classifier_shape.1 defaultThresholds sampleCondDecomp
      sampleFactsNoContract).2.2.2.1 Cause.noActiveContract Cause.unexpectedCost
    (by rfl)
    (by norm_num [priceCauseOf, ucQualifies, mpfQualifies, contractCauseOf,
      defaultThresholds, sampleCondDecomp, sampleFactsNoContract, abs_of_nonneg])

/-- An engine configuration whose only rate is a Friday (day 4) USD rate. -/
def fridayRateEnv (rate : ℚ) : EngineEnv :=
  ⟨[⟨"M", "USD", "EUR", 4, rate, "ECB"⟩], [], [], 10, [], 1 / 1000000⟩

/-- An engine configuration with an empty rate table. -/
def emptyRatesEnv : EngineEnv :=
  ⟨[], [], [], 10, [], 1 / 1000000⟩

/-- The backward walk over an empty rate table finds nothing, whatever the
fuel and the starting date. -/
theorem lookupRate_nil (hol : List Nat) (c : String) :
    ∀ (fuel d : Nat), lookupRate [] hol c d fuel = none := by
  intro fuel
  induction fuel with
  | zero => intro d; rfl
  | succ n ih =>
    intro d
    unfold lookupRate
    split
    · rw [show findRateOn [] c d = none from rfl]
      exact ih (d - 1)
    · exact ih (d - 1)

/-- C3: `toEUR` is the identity on EUR amounts; for any other currency it
multiplies by the rate the backward business-day walk resolves, fails with
`RateNotFoundError` when the bounded lookback is exhausted (never
defaulting the rate to 1.0), and on a Sunday posting date with only a
Friday rate configured it resolves to that Friday rate. -/
theorem ppv_C3_fx_lookup :
    (∀ (env : EngineEnv) (amount : ℚ) (date : Nat),
      toEUR env amount "EUR" date = .ok amount) ∧
    (∀ (env : EngineEnv) (amount : ℚ) (currency : String) (date : Nat),
      currency ≠ "EUR" →
      lookupRate env.fxRates env.holidays currency date (env.maxLookback + 1) =
        none →
      toEUR env amount currency date = .error (.rateNotFound currency date)) ∧
    (∀ (env : EngineEnv) (amount : ℚ) (currency : String) (date : Nat) (r : ℚ),
      currency ≠ "EUR" →
      lookupRate env.fxRates env.holidays currency date (env.maxLookback + 1) =
        some r →
      toEUR env amount currency date = .ok (amount * r)) ∧
    (∀ (amount rate : ℚ),
      toEUR (fridayRateEnv rate) amount "USD" 6 = .ok (amount * rate)) ∧
    (∀ (amount : ℚ) (date : Nat),
      toEUR emptyRatesEnv amount "USD" date =
        .error (.rateNotFound "USD" date)) := by
  refine ⟨?_, ?_, ?_, ?_, ?_⟩
  · intro env amount date
    simp [toEUR]
  · intro env amount currency date h1 h2
    simp [toEUR, h1, h2]
  · intro env amount currency date r h1 h2
    simp [toEUR, h1, h2]
  · intro amount rate
    norm_num [toEUR, fridayRateEnv, lookupRate, isBusinessDay, isWeekend,
      findRateOn, List.find?]
    intro h
    exact absurd h (by decide)
  · intro amount date
    simp [toEUR, emptyRatesEnv, lookupRate_nil]

/-- C3 witness: with an empty rate table the USD conversion of amount 5 at
day 20 aborts with `RateNotFoundError`, and with only a Friday rate of 2
the Sunday conversion of amount 10 resolves to 10 * 2. -/
theorem ppv_C3_fx_lookup_witness :
    toEUR emptyRatesEnv 5 "USD" 20 = .error (.rateNotFound "USD" 20) ∧
    toEUR (fridayRateEnv 2) 10 "USD" 6 = .ok (10 * 2) :=
  ⟨ppv_C3_fx_lookup.2.1 emptyRatesEnv 5 "USD" 20 (by decide)
      (by simp [emptyRatesEnv, lookupRate_nil]),
    ppv_C3_fx_lookup.2.2.2.1 10 2⟩

/-- C4: netting one invoice of quantity 100 for 1000 with a credit memo of
quantity -10 for -100 yields net quantity 90, net amount 900 and posted
unit price 10 before FX; and in general the posted unit price is the net
amount over the net converted quantity, failing with
`DegenerateQuantityError` exactly when the net converted quantity is zero —
the division is never performed in that case. -/
theorem ppv_C4_credit_netting :
    (aggregateInvoices sampleEnv samplePO [sampleInvoice, sampleCreditMemo] =
        .ok (90, 90, 900) ∧
      postedUnitPriceEUR sampleEnv samplePO [sampleInvoice, sampleCreditMemo] =
        .ok 10) ∧
    (∀ (env : EngineEnv) (po : POItem) (invoices : List InvoiceItem)
      (netQty netRaw netAmt : ℚ),
      aggregateInvoices env po invoices = .ok (netQty, netRaw, netAmt) →
      ((postedUnitPriceEUR env po invoices = .error .degenerateQuantity) ↔
        netQty = 0) ∧
      (netQty ≠ 0 →
        postedUnitPriceEUR env po invoices = .ok (netAmt / netQty))) := by
  constructor
  · constructor
    · norm_num [aggregateInvoices, convertQuantity, toEUR, sampleEnv, samplePO,
        sampleInvoice, sampleCreditMemo]
    · norm_num [postedUnitPriceEUR, aggregateInvoices, convertQuantity, toEUR,
        sampleEnv, samplePO, sampleInvoice, sampleCreditMemo]
  · intro env po invoices netQty netRaw netAmt h
    unfold postedUnitPriceEUR
    rw [h]
    by_cases h0 : netQty = 0
    · simp [h0]
    · simp [h0]

/-- C4 witness: the concrete netted batch has a posted unit price and does
not hit the degenerate-quantity branch. -/
theorem ppv_C4_credit_netting_witness :
    postedUnitPriceEUR sampleEnv samplePO [sampleInvoice, sampleCreditMemo] =
      .ok (900 / 90) :=
  (ppv_C4_credit_netting.2 sampleEnv samplePO [sampleInvoice, sampleCreditMemo]
      90 90 900
      (by norm_num [aggregateInvoices, convertQuantity, toEUR, sampleEnv,
        samplePO, sampleInvoice, sampleCreditMemo])).2 (by norm_num)

/-- C5: the external-context lookup triggers exactly when `Material Price
Fluctuation` was selected and the Residual reaches the 3% materiality
threshold relative to the total variance; the boundary is inclusive — a
2.99% Residual does not trigger it, a 3.00% Residual does, and without the
`Material Price Fluctuation` selection even a huge Residual does not. -/
theorem ppv_C5_materiality_gate :
    (∀ (causes : List Cause) (residual totalVar : ℚ),
      externalLookupTriggered causes residual totalVar = true ↔
        Cause.materialPriceFluctuation ∈ causes ∧
          |residual| / |totalVar| ≥ materialityThreshold) ∧
    externalLookupTriggered [Cause.materialPriceFluctuation] (299 / 100) 100 =
      false ∧
    externalLookupTriggered [Cause.materialPriceFluctuation] 3 100 = true ∧
    externalLookupTriggered [Cause.unexpectedCost] 50 100 = false := by
  refine ⟨?_, ?_, ?_, ?_⟩
  · intro causes residual totalVar
    simp [externalLookupTriggered]
  · norm_num [externalLookupTriggered, materialityThreshold, abs_of_nonneg]
  · norm_num [externalLookupTriggered, materialityThreshold, abs_of_nonneg]
  · norm_num [externalLookupTriggered]
    intro h
    exact absurd h (by simp)

/-- The auxiliary facts of an item with a healthy linked contract. -/
def sampleFactsClean : AuxFacts := ⟨true, true, true⟩

/-- A sample item whose external-context lookup would succeed. -/
def sampleItem : ItemInput :=
  ⟨samplePO, [sampleInvoice], [], sampleFactsClean, .ok ⟨"market moved", "src"⟩⟩

/-- The result `computeItem` produces for `sampleItem` when the lookup
fails: the full decomposition and classification, with no context. -/
def sampleResultNoCtx : VarianceResult :=
  ⟨sampleDecomposition, [.materialPriceFluctuation],
    ["Suggest revised invoice", "Align master-data price with supplier"],
    ["Proactive price-change alert", "Periodic index checks"], none⟩

/-- C6: an erroring or timed-out external-context lookup never fails the
item: the computation succeeds exactly as it would with a working lookup,
the produced result carries `externalContext = none`, and any fatal error
of the item originates in the decomposition, never in the lookup. -/
theorem ppv_C6_lookup_failure_not_fatal :
    ∀ (env : EngineEnv) (th : Thresholds) (item : ItemInput)
      (out : LookupOutcome),
      resolveLookup out = none →
      ((computeItem env th { item with lookup := out }).isOk =
        (computeItem env th item).isOk) ∧
      (∀ r, computeItem env th { item with lookup := out } = .ok r →
        r.externalContext = none) ∧
      (∀ e, computeItem env th { item with lookup := out } = .error e →
        decompose env item.po item.invoices item.conditions = .error e) := by
  intro env th item out hout
  unfold computeItem
  cases hD : decompose env item.po item.invoices item.conditions with
  | error e =>
    refine ⟨rfl, ?_, ?_⟩
    · intro r h
      exact absurd h (by simp)
    · intro e' h
      simp at h
      rw [h]
  | ok d =>
    refine ⟨rfl, ?_, ?_⟩
    · intro r h
      obtain rfl := Except.ok.inj h
      simp [hout]
    · intro e' h
      exact absurd h (by simp)

/-- C6 witness: on the sample item with a failed lookup the computation
still succeeds, matching the success of the working-lookup run, and the
result carries no external context. -/
theorem ppv_C6_lookup_failure_not_fatal_witness :
    ((computeItem sampleEnv defaultThresholds
        { sampleItem with lookup := .failed }).isOk =
      (computeItem sampleEnv defaultThresholds sampleItem).isOk) ∧
    sampleResultNoCtx.externalContext = none :=
  ⟨(ppv_C6_lookup_failure_not_fatal sampleEnv defaultThresholds sampleItem
      .failed rfl).1,
    (ppv_C6_lookup_failure_not_fatal sampleEnv defaultThresholds sampleItem
        .failed rfl).2.1 sampleResultNoCtx
      (by
        norm_num [computeItem, decompose, toEUR, aggregateInvoices,
          convertQuantity, disallowedFeeSum, fxBucket, uomBucket,
          mkDecomposition, finalizeDecomposition, invariantOK, sumContributions,
          totalVariance, classify, contractCauseOf, priceCauseOf, ucQualifies,
          mpfQualifies, actionsFor, actionCatalog, externalLookupTriggered,
          materialityThreshold, resolveLookup, defaultThresholds, sampleEnv,
          samplePO, sampleInvoice, sampleItem, sampleFactsClean,
          sampleDecomposition, sampleResultNoCtx, abs_of_nonneg,
          List.eraseDups]
        constructor <;> rfl)⟩

/-- A batch step on a succeeding item records its result and keeps the rest
of the batch untouched. -/
theorem processBatch_cons_ok {env : EngineEnv} {th : Thresholds}
    {it : ItemInput} {rest : List ItemInput} {r : VarianceResult}
    (h : computeItem env th it = .ok r) :
    processBatch env th (it :: rest) =
      ⟨(itemKey it, r) :: (processBatch env th rest).results,
        (processBatch env th rest).failures⟩ := by
  simp [processBatch, h]

/-- A batch step on a failing item records its identity and reason among
the failures and keeps the rest of the batch untouched. -/
theorem processBatch_cons_error {env : EngineEnv} {th : Thresholds}
    {it : ItemInput} {rest : List ItemInput} {e : EngineError}
    (h : computeItem env th it = .error e) :
    processBatch env th (it :: rest) =
      ⟨(processBatch env th rest).results,
        ⟨itemKey it, e⟩ :: (processBatch env th rest).failures⟩ := by
  simp [processBatch, h]

/-- C7: in a multi-item request every item is accounted for — results plus
failures exhaust the batch; every item whose computation fails with one of
the fatal per-item errors appears in the failure list with its identity and
reason; and every other item is still processed, its result appearing in
the aggregate output regardless of the failures around it. -/
theorem ppv_C7_per_item_isolation :
    ∀ (env : EngineEnv) (th : Thresholds) (items : List ItemInput),
      ((processBatch env th items).results.length +
        (processBatch env th items).failures.length = items.length) ∧
      (∀ item, item ∈ items → ∀ e, computeItem env th item = .error e →
        (⟨itemKey item, e⟩ : ItemFailure) ∈
          (processBatch env th items).failures) ∧
      (∀ item, item ∈ items → ∀ r, computeItem env th item = .ok r →
        (itemKey item, r) ∈ (processBatch env th items).results) := by
  intro env th items
  induction items with
  | nil => exact ⟨rfl, by simp [processBatch], by simp [processBatch]⟩
  | cons it rest ih =>
    obtain ⟨ih1, ih2, ih3⟩ := ih
    refine ⟨?_, ?_, ?_⟩
    · cases h : computeItem env th it with
      | ok r => rw [processBatch_cons_ok h]; simp only [List.length_cons]; omega
      | error e =>
        rw [processBatch_cons_error h]; simp only [List.length_cons]; omega
    · intro item hmem e hitem
      rcases List.mem_cons.mp hmem with rfl | hmem2
      · rw [processBatch_cons_error hitem]
        exact List.mem_cons_self _ _
      · cases h : computeItem env th it with
        | ok r =>
          rw [processBatch_cons_ok h]
          exact ih2 item hmem2 e hitem
        | error e2 =>
          rw [processBatch_cons_error h]
          exact List.mem_cons_of_mem _ (ih2 item hmem2 e hitem)
    · intro item hmem r hitem
      rcases List.mem_cons.mp hmem with rfl | hmem2
      · rw [processBatch_cons_ok hitem]
        exact List.mem_cons_self _ _
      · cases h : computeItem env th it with
        | ok r2 =>
          rw [processBatch_cons_ok h]
          exact List.mem_cons_of_mem _ (ih3 item hmem2 r hitem)
        | error e =>
          rw [processBatch_cons_error h]
          exact ih3 item hmem2 r hitem

/-- An item whose PO has no matched invoice rows: its computation fails
with `MissingTableError`. -/
def failingItem : ItemInput := ⟨samplePO, [], [], sampleFactsClean, .failed⟩

/-- The result `computeItem` produces for `sampleItem` with its working
lookup: as `sampleResultNoCtx` but carrying the external context. -/
def sampleResultCtx : VarianceResult :=
  ⟨sampleDecomposition, [.materialPriceFluctuation],
    ["Suggest revised invoice", "Align master-data price with supplier"],
    ["Proactive price-change alert", "Periodic index checks"],
    some ⟨"market moved", "src"⟩⟩

/-- C7 witness: in the two-item batch of a failing and a succeeding item,
both are accounted for, the failing item is reported with its identity and
its `MissingTableError` reason, and the succeeding item is still fully
processed. -/
theorem ppv_C7_per_item_isolation_witness :
    ((processBatch sampleEnv defaultThresholds
        [failingItem, sampleItem]).results.length +
      (processBatch sampleEnv defaultThresholds
        [failingItem, sampleItem]).failures.length = 2) ∧
    (⟨itemKey failingItem, .missingTable "SUPPLIER_INVOICE_ITEMS"⟩ :
        ItemFailure) ∈
      (processBatch sampleEnv defaultThresholds
        [failingItem, sampleItem]).failures ∧
    (itemKey sampleItem, sampleResultCtx) ∈
      (processBatch sampleEnv defaultThresholds
        [failingItem, sampleItem]).results :=
  ⟨(ppv_C7_per_item_isolation sampleEnv defaultThresholds
      [failingItem, sampleItem]).1,
    (ppv_C7_per_item_isolation sampleEnv defaultThresholds
        [failingItem, sampleItem]).2.1 failingItem (by simp)
      (.missingTable "SUPPLIER_INVOICE_ITEMS") (by rfl),
    (ppv_C7_per_item_isolation sampleEnv defaultThresholds
        [failingItem, sampleItem]).2.2 sampleItem (by simp) sampleResultCtx
      (by
        norm_num [computeItem, decompose, toEUR, aggregateInvoices,
          convertQuantity, disallowedFeeSum, fxBucket, uomBucket,
          mkDecomposition, finalizeDecomposition, invariantOK, sumContributions,
          totalVariance, classify, contractCauseOf, priceCauseOf, ucQualifies,
          mpfQualifies, actionsFor, actionCatalog, externalLookupTriggered,
          materialityThreshold, resolveLookup, defaultThresholds, sampleEnv,
          samplePO, sampleInvoice, sampleItem, sampleFactsClean,
          sampleDecomposition, sampleResultCtx, abs_of_nonneg, List.eraseDups]
        constructor <;> rfl)⟩

/-- C8: the per-item computation is a deterministic function of its inputs
— identical inputs yield identical results, in particular identical
contribution values — and the mock demo package of the repository code is
likewise deterministic in its inputs. -/
theorem ppv_C8_determinism :
    ∀ (env : EngineEnv) (th : Thresholds) (a b : ItemInput), a = b →
      computeItem env th a = computeItem env th b ∧
      (∀ ra rb, computeItem env th a = .ok ra →
        computeItem env th b = .ok rb →
        ra.decomposition.conditions = rb.decomposition.conditions ∧
          ra.decomposition.fx = rb.decomposition.fx ∧
          ra.decomposition.uom = rb.decomposition.uom ∧
          ra.decomposition.residual = rb.decomposition.residual) ∧
      (∀ c u : String, Wish.getMockDemoPackage c u = Wish.getMockDemoPackage c u) := by
  intro env th a b hab
  subst hab
  refine ⟨rfl, ?_, fun _ _ => rfl⟩
  intro ra rb h1 h2
  rw [h1] at h2
  obtain rfl := Except.ok.inj h2
  exact ⟨rfl, rfl, rfl, rfl⟩

/-- C8 witness: the sample item computed twice gives the same result and
identical contribution values. -/
theorem ppv_C8_determinism_witness :
    computeItem sampleEnv defaultThresholds sampleItem =
      computeItem sampleEnv defaultThresholds sampleItem ∧
    sampleResultCtx.decomposition.conditions =
        sampleResultCtx.decomposition.conditions ∧
      sampleResultCtx.decomposition.fx = sampleResultCtx.decomposition.fx ∧
      sampleResultCtx.decomposition.uom = sampleResultCtx.decomposition.uom ∧
      sampleResultCtx.decomposition.residual =
        sampleResultCtx.decomposition.residual :=
  ⟨(ppv_C8_determinism sampleEnv defaultThresholds sampleItem sampleItem rfl).1,
    (ppv_C8_determinism sampleEnv defaultThresholds sampleItem sampleItem
        rfl).2.1 sampleResultCtx sampleResultCtx
      (by
        norm_num [computeItem, decompose, toEUR, aggregateInvoices,
          convertQuantity, disallowedFeeSum, fxBucket, uomBucket,
          mkDecomposition, finalizeDecomposition, invariantOK, sumContributions,
          totalVariance, classify, contractCauseOf, priceCauseOf, ucQualifies,
          mpfQualifies, actionsFor, actionCatalog, externalLookupTriggered,
          materialityThreshold, resolveLookup, defaultThresholds, sampleEnv,
          samplePO, sampleInvoice, sampleItem, sampleFactsClean,
          sampleDecomposition, sampleResultCtx, abs_of_nonneg, List.eraseDups]
        constructor <;> rfl)
      (by
        norm_num [computeItem, decompose, toEUR, aggregateInvoices,
          convertQuantity, disallowedFeeSum, fxBucket, uomBucket,
          mkDecomposition, finalizeDecomposition, invariantOK, sumContributions,
          totalVariance, classify, contractCauseOf, priceCauseOf, ucQualifies,
          mpfQualifies, actionsFor, actionCatalog, externalLookupTriggered,
          materialityThreshold, resolveLookup, defaultThresholds, sampleEnv,
          samplePO, sampleInvoice, sampleItem, sampleFactsClean,
          sampleDecomposition, sampleResultCtx, abs_of_nonneg, List.eraseDups]
        constructor <;> rfl)⟩

end PPV
